import Mathlib

/-!
Verification of the SQLite MCP server core (src/src/server.ts).

The development embeds the operation dispatcher of `server.ts` (the
`CallToolRequestSchema` handler, lines 142-217) together with the six
operation handlers (`listTables`, `describeTable`, `runQuery`, `insertRow`,
`updateRow`, `deleteRow`, lines 255-449).  JavaScript string methods, the
JSON serializer and the SQLite engine itself live outside the repository;
they are modelled explicitly (each such definition carries a doc comment
saying what it is modelled from).  Everything else is translated directly
from the TypeScript source.
-/

namespace SqliteMcp

/-! ### Models of the ECMAScript string methods used by server.ts -/

/-- Modelled from ECMAScript `String.prototype.toLowerCase` restricted to
ASCII (the only case the validator at server.ts line 342 relies on):
uppercase ASCII letters are shifted down by 32, all other characters are
kept. -/
def jsCharToLower (c : Char) : Char :=
  if 65 ≤ c.toNat && c.toNat ≤ 90 then Char.ofNat (c.toNat + 32) else c

/-- ASCII whitespace, the part of the ECMAScript `TrimString` character
class that matters for SQL text. -/
def jsIsWhitespace (c : Char) : Bool :=
  c == ' ' || c == '\t' || c == '\n' || c == '\r'

/-- Modelled from ECMAScript `String.prototype.trim`: drop leading and
trailing whitespace. -/
def jsTrim (s : String) : String :=
  ⟨((s.data.dropWhile jsIsWhitespace).reverse.dropWhile jsIsWhitespace).reverse⟩

/-- Modelled from ECMAScript `String.prototype.toLowerCase` (ASCII). -/
def jsToLower (s : String) : String := ⟨s.data.map jsCharToLower⟩

/-- Modelled from ECMAScript `String.prototype.startsWith`. -/
def jsStartsWith (s pre : String) : Bool := pre.data.isPrefixOf s.data

/-! ### Byte-order comparison of names, for ORDER BY

SQLite orders text by `memcmp` over UTF-8 bytes (BINARY collation); on the
code-point level this is lexicographic comparison of the scalar values,
which UTF-8 preserves. -/

/-- Lexicographic comparison of character lists by code point. -/
def charListLe : List Char → List Char → Bool
  | [], _ => true
  | _ :: _, [] => false
  | a :: as, b :: bs =>
    if a.toNat < b.toNat then true
    else if b.toNat < a.toNat then false
    else charListLe as bs

/-- Modelled from the SQLite BINARY collation used by `ORDER BY name`. -/
def strLe (a b : String) : Bool := charListLe a.data b.data

/-- The ordering relation on table names as a proposition. -/
def strLeP (a b : String) : Prop := strLe a b = true

instance : DecidableRel strLeP := fun a b =>
  inferInstanceAs (Decidable (strLe a b = true))

instance : IsTotal String strLeP := by
  constructor
  intro s t
  suffices H : ∀ a b : List Char, charListLe a b = true ∨ charListLe b a = true from
    H s.data t.data
  intro a
  induction a with
  | nil => intro b; left; rfl
  | cons x xs ih =>
    intro b
    cases b with
    | nil => right; rfl
    | cons y ys =>
      rcases Nat.lt_trichotomy x.toNat y.toNat with h | h | h
      · left; simp [charListLe, h]
      · rcases ih ys with h' | h'
        · left; simp [charListLe, h, h']
        · right; simp [charListLe, h, h']
      · right; simp [charListLe, h]

instance : IsTrans String strLeP := by
  constructor
  intro s t u
  suffices H : ∀ a b c : List Char,
      charListLe a b = true → charListLe b c = true → charListLe a c = true from
    H s.data t.data u.data
  intro a
  induction a with
  | nil => intro b c _ _; rfl
  | cons x xs ih =>
    intro b c h₁ h₂
    cases b with
    | nil => simp [charListLe] at h₁
    | cons y ys =>
      cases c with
      | nil => simp [charListLe] at h₂
      | cons z zs =>
        simp only [charListLe] at h₁ h₂ ⊢
        rcases Nat.lt_trichotomy x.toNat y.toNat with hxy | hxy | hxy <;>
          rcases Nat.lt_trichotomy y.toNat z.toNat with hyz | hyz | hyz
        · have hxz : x.toNat < z.toNat := Nat.lt_trans hxy hyz
          rw [if_pos hxz]
        · have hxz : x.toNat < z.toNat := hyz ▸ hxy
          rw [if_pos hxz]
        · rw [if_neg (by omega), if_pos hyz] at h₂
          exact absurd h₂ (by simp)
        · have hxz : x.toNat < z.toNat := hxy ▸ hyz
          rw [if_pos hxz]
        · rw [if_neg (by omega), if_neg (by omega)] at h₁
          rw [if_neg (by omega), if_neg (by omega)] at h₂
          rw [if_neg (by omega), if_neg (by omega)]
          exact ih ys zs h₁ h₂
        · rw [if_neg (by omega), if_pos hyz] at h₂
          exact absurd h₂ (by simp)
        · rw [if_neg (by omega), if_pos hxy] at h₁
          exact absurd h₁ (by simp)
        · rw [if_neg (by omega), if_pos hxy] at h₁
          exact absurd h₁ (by simp)
        · rw [if_neg (by omega), if_pos hxy] at h₁
          exact absurd h₁ (by simp)

/-! ### JavaScript values

The dispatcher receives `arguments` as a loosely typed JSON object
(`Record<string, any>`).  `JValue` is the JSON fragment relevant to the
tool calls; object fields keep insertion order, matching the iteration
order of `Object.keys` / `Object.values` used by the statement builders. -/

inductive JValue where
  | jnull
  | jbool (b : Bool)
  | jnum (n : Int)
  | jstr (s : String)
  | jobj (fields : List (String × JValue))

/-- Modelled from the JavaScript `typeof` operator on the values above;
note `typeof null` is `"object"`, as in JavaScript. -/
def JValue.typeofStr : JValue → String
  | .jnull => "object"
  | .jbool _ => "boolean"
  | .jnum _ => "number"
  | .jstr _ => "string"
  | .jobj _ => "object"

/-- Modelled from JavaScript truthiness, as tested by the `!args?.x`
guards of the dispatcher: `null`, `false`, `0` and the empty string are
falsy, every object is truthy. -/
def JValue.truthy : JValue → Bool
  | .jnull => false
  | .jbool b => b
  | .jnum n => n != 0
  | .jstr s => !s.data.isEmpty
  | .jobj _ => true

def JValue.asString : JValue → String
  | .jstr s => s
  | _ => ""

def JValue.asObj : JValue → List (String × JValue)
  | .jobj fields => fields
  | _ => []

/-! ### A model of `JSON.stringify(value, null, 2)`

`describeTable` and `runQuery` render their results with the ECMAScript
serializer at indentation 2 (server.ts lines 326 and 355). -/

inductive Json where
  | null
  | bool (b : Bool)
  | num (n : Int)
  | str (s : String)
  | arr (elems : List Json)
  | obj (fields : List (String × Json))

/-- JSON string escaping as performed by `JSON.stringify` (quote,
backslash and ASCII control characters). -/
def jsonEscapeChar (c : Char) : String :=
  if c == '"' then "\\\""
  else if c == '\\' then "\\\\"
  else if c == '\n' then "\\n"
  else if c == '\r' then "\\r"
  else if c == '\t' then "\\t"
  else if c.toNat < 32 then
    "\\u00" ++ String.mk [Char.ofNat (48 + c.toNat / 16),
      if c.toNat % 16 < 10 then Char.ofNat (48 + c.toNat % 16)
      else Char.ofNat (87 + c.toNat % 16)]
  else String.mk [c]

def jsonQuote (s : String) : String :=
  "\"" ++ String.join (s.data.map jsonEscapeChar) ++ "\""

def jsonIndent (n : Nat) : String := String.mk (List.replicate (2 * n) ' ')

/-! Modelled from ECMAScript `JSON.stringify(v, null, 2)`: empty arrays
and objects render inline, non-empty ones put each member on its own line
indented two further spaces. -/
mutual
def Json.render (d : Nat) : Json → String
  | .null => "null"
  | .bool b => if b then "true" else "false"
  | .num n => toString n
  | .str s => jsonQuote s
  | .arr [] => "[]"
  | .arr (x :: xs) =>
    "[\n" ++ Json.renderItems (d + 1) (x :: xs) ++ "\n" ++ jsonIndent d ++ "]"
  | .obj [] => "\x7b\x7d"
  | .obj (f :: fs) =>
    "\x7b\n" ++ Json.renderFields (d + 1) (f :: fs) ++ "\n" ++ jsonIndent d ++ "\x7d"
def Json.renderItems (d : Nat) : List Json → String
  | [] => ""
  | [x] => jsonIndent d ++ Json.render d x
  | x :: y :: xs =>
    jsonIndent d ++ Json.render d x ++ ",\n" ++ Json.renderItems d (y :: xs)
def Json.renderFields (d : Nat) : List (String × Json) → String
  | [] => ""
  | [(k, v)] => jsonIndent d ++ jsonQuote k ++ ": " ++ Json.render d v
  | (k, v) :: g :: fs =>
    jsonIndent d ++ jsonQuote k ++ ": " ++ Json.render d v ++ ",\n" ++
      Json.renderFields d (g :: fs)
end

/-- Top-level `JSON.stringify(v, null, 2)`. -/
def jsonStringify2 (v : Json) : String := Json.render 0 v

mutual
def JValue.toJson : JValue → Json
  | .jnull => .null
  | .jbool b => .bool b
  | .jnum n => .num n
  | .jstr s => .str s
  | .jobj fields => .obj (JValue.fieldsToJson fields)
def JValue.fieldsToJson : List (String × JValue) → List (String × Json)
  | [] => []
  | (k, v) :: rest => (k, JValue.toJson v) :: JValue.fieldsToJson rest
end

/-! ### Model of the SQLite database state

The sqlite3 driver is a third-party dependency; this section models the
slice of its behaviour the six handlers exercise.  A database is the list
of `sqlite_master` entries, each carrying its schema (in the shape the
`table_info` pragma reports it), its original creation statement text and
its rows. -/

/-- A stored row: column name to value, in column order. -/
abbrev Row := List (String × JValue)

/-- One row of `PRAGMA table_info(t)` output, with the field names the
driver reports (server.ts lines 313-319 read `name`, `type`, `notnull`,
`pk` and `dflt_value`). -/
structure PragmaColumnRow where
  name : String
  type : String
  notnull : Nat
  pk : Nat
  dflt_value : JValue

/-- One `sqlite_master` entry together with its data. -/
structure SqliteTable where
  name : String
  objType : String
  columns : List PragmaColumnRow
  createSql : String
  rows : List Row

abbrev SqliteDb := List SqliteTable

def findTable (db : SqliteDb) (tableName : String) : Option SqliteTable :=
  db.find? (fun t => t.name == tableName)

/-- Modelled from the SQLite `LIKE` operator applied to the pattern
matching system tables in the list-tables query: `LIKE` is
case-insensitive for ASCII and the single-character wildcard after the
prefix requires at least one further character, so a name matches iff its
lower-cased form starts with `sqlite` and it has at least 7 characters. -/
def likeSqlitePrefix (name : String) : Bool :=
  jsStartsWith (jsToLower name) "sqlite" && decide (7 ≤ name.data.length)

/-- Modelled from the SQLite engine executing the fixed list-tables query
(server.ts lines 262-266): names of catalog entries of type `table` whose
name does not match the system-table pattern, in BINARY-collation order. -/
def listTableNames (db : SqliteDb) : List String :=
  List.insertionSort strLeP
    ((db.filter (fun t => t.objType == "table" && !likeSqlitePrefix t.name)).map
      (fun t => t.name))

/-- Modelled from the SQLite engine executing `PRAGMA table_info(t)` for a
name `t` that is a well-formed non-keyword identifier token (the domain
`isSqlIdentToken` below; the theorems using this definition restrict
themselves to it): the column rows of the named table, and zero rows (not
an error) when no such table exists.  For names outside that domain —
keywords, digit-leading names, or names with other characters — the real
pragma can be a syntax error; that behaviour is not modelled here and no
theorem relies on it. -/
def pragmaTableInfo (db : SqliteDb) (tableName : String) : List PragmaColumnRow :=
  match findTable db tableName with
  | some t => t.columns
  | none => []

/-- Modelled from the SQLite engine executing the parameterized statement
that fetches a creation statement from `sqlite_master` (server.ts lines
300-303); the driver `get` call yields `undefined` when no row matches. -/
def sqliteMasterSql (db : SqliteDb) (tableName : String) : Option String :=
  match findTable db tableName with
  | some t => some t.createSql
  | none => none

def replaceRows (db : SqliteDb) (tableName : String) (rows : List Row) : SqliteDb :=
  db.map (fun t => if t.name == tableName then { t with rows := rows } else t)

/-! ### Response types (src/src/types/mcp.ts and types/database.ts) -/

/-- A content block; the handlers only ever produce blocks of type
`text` (src/src/types/mcp.ts lines 29-38). -/
structure MCPContent where
  type : String
  text : String
  deriving DecidableEq

/-- The tool-call result shape (src/src/types/mcp.ts lines 53-58):
`isError` is an optional field, set only by the dispatcher's catch
branch. -/
structure ToolCallResult where
  content : List MCPContent
  isError? : Option Bool
  deriving DecidableEq

/-- src/src/types/database.ts lines 13-19. -/
structure ColumnInfo where
  name : String
  type : String
  notNull : Bool
  primaryKey : Bool
  defaultValue : JValue

/-- src/src/types/database.ts lines 7-11; `createSql` is optional and the
code stores `null` (here `none`) when absent. -/
structure TableSchema where
  name : String
  columns : List ColumnInfo
  createSql : Option String

def ColumnInfo.toJson (c : ColumnInfo) : Json :=
  .obj [("name", .str c.name), ("type", .str c.type),
    ("notNull", .bool c.notNull), ("primaryKey", .bool c.primaryKey),
    ("defaultValue", c.defaultValue.toJson)]

def TableSchema.toJson (s : TableSchema) : Json :=
  .obj [("name", .str s.name),
    ("columns", .arr (s.columns.map ColumnInfo.toJson)),
    ("createSql", match s.createSql with | some t => .str t | none => .null)]

/-- Builder for the one content-block shape every handler produces. -/
def textContent (t : String) : MCPContent := { type := "text", text := t }

/-! ### The six operation handlers (server.ts lines 255-449)

Each handler returns the driver outcome, the database state after the
call, and the list of SQL statement texts it handed to the driver. -/

/-- The outcome of one operation handler. -/
structure HandlerOut where
  result : Except String (List MCPContent)
  db : SqliteDb
  executed : List String

/-- The behaviour of the engine on a free-form SELECT text is not decided
by this repository; `runQuery` is parameterized over it. -/
abbrev SelectEngine := String → Except String (List Row)

/-- The mutating half of the sqlite3 driver, `this.db.run(query, values)`
(server.ts lines 376, 408, 436): it receives the statement text and the
bound parameters and yields either the updated database state with the
driver-reported `lastID` and `changes`, or a driver error.  The engine is
a third-party dependency, so the handlers are parameterized over it; the
theorems below either hypothesize its behaviour at the exact statement
texts they build (hypotheses recorded from behaviour verified against a
real SQLite engine) or instantiate it with `sqliteVerifiedRun`. -/
abbrev RunEngine := SqliteDb → String → List JValue → Except String (SqliteDb × Nat × Nat)

/-- The fixed list-tables statement (template literal, server.ts lines
262-266), whitespace included. -/
def listTablesQuery : String :=
  "\n        SELECT name FROM sqlite_master \n        WHERE type=\x27table\x27 AND name NOT LIKE \x27sqlite_%\x27\n        ORDER BY name\n      "

/-- server.ts lines 255-281. -/
def listTables (db : SqliteDb) : HandlerOut :=
  let tables := listTableNames db
  { result := .ok [textContent ("Found " ++ toString tables.length ++ " tables:\n" ++
      String.intercalate "\n" (tables.map (fun n => "- " ++ n)))],
    db := db,
    executed := [listTablesQuery] }

/-- The parameterized creation-statement query (template literal,
server.ts lines 300-303). -/
def createSqlQuery : String :=
  "\n          SELECT sql FROM sqlite_master \n          WHERE type=\x27table\x27 AND name = ?\n        "

/-- Modelled from the JavaScript expression `(createStmt as any)?.sql ||
null` (server.ts line 320): an absent row or an empty string both yield
null. -/
def jsSqlOrNull : Option String → Option String
  | some s => if s.data.isEmpty then none else some s
  | none => none

/-- server.ts lines 283-332.  The table name is interpolated verbatim into
the pragma text (line 291); no check is applied to it. -/
def describeTable (db : SqliteDb) (tableName : String) : HandlerOut :=
  let schemaQuery := "PRAGMA table_info(" ++ tableName ++ ")"
  let columns := pragmaTableInfo db tableName
  let createStmt := sqliteMasterSql db tableName
  let description : TableSchema :=
    { name := tableName
      columns := columns.map (fun col =>
        { name := col.name, type := col.type, notNull := col.notnull == 1,
          primaryKey := col.pk == 1, defaultValue := col.dflt_value })
      createSql := jsSqlOrNull createStmt }
  { result := .ok [textContent ("Table: " ++ tableName ++ "\n" ++
      jsonStringify2 description.toJson)],
    db := db,
    executed := [schemaQuery, createSqlQuery] }

/-- The read gate inside `runQuery` (server.ts lines 341-346): trim,
lower-case, require the `select` prefix; `none` means accepted, `some r`
means rejected with reason `r`. -/
def validateRead (query : String) : Option String :=
  let trimmedQuery := jsToLower (jsTrim query)
  if !jsStartsWith trimmedQuery "select" then
    some "Only SELECT queries are allowed for security reasons"
  else
    none

def rowsToJson (rows : List Row) : Json :=
  .arr (rows.map (fun r => Json.obj (JValue.fieldsToJson r)))

/-- server.ts lines 334-361. -/
def runQuery (eng : SelectEngine) (db : SqliteDb) (query : String) : HandlerOut :=
  match validateRead query with
  | some reason => { result := .error reason, db := db, executed := [] }
  | none =>
    match eng query with
    | .error e => { result := .error e, db := db, executed := [query] }
    | .ok results =>
      { result := .ok [textContent ("Query executed successfully. Found " ++
          toString results.length ++ " rows:\n" ++ jsonStringify2 (rowsToJson results))],
        db := db,
        executed := [query] }

/-- server.ts lines 363-389.  Table name and column names are interpolated
verbatim into the statement text (line 374), which is handed to the
driver together with the values. -/
def insertRow (run : RunEngine) (db : SqliteDb) (tableName : String)
    (data : List (String × JValue)) : HandlerOut :=
  let columns := data.map Prod.fst
  let values := data.map Prod.snd
  let placeholders := String.intercalate ", " (columns.map (fun _ => "?"))
  let query := "INSERT INTO " ++ tableName ++ " (" ++
    String.intercalate ", " columns ++ ") VALUES (" ++ placeholders ++ ")"
  match run db query values with
  | .error e => { result := .error e, db := db, executed := [query] }
  | .ok (db', lastID, changes) =>
    { result := .ok [textContent ("Row inserted successfully. Last insert ID: " ++
        toString lastID ++ ", Changes: " ++ toString changes)],
      db := db',
      executed := [query] }

/-- server.ts lines 391-421. -/
def updateRow (run : RunEngine) (db : SqliteDb) (tableName : String)
    (data where_ : List (String × JValue)) : HandlerOut :=
  let setColumns := data.map Prod.fst
  let setValues := data.map Prod.snd
  let whereColumns := where_.map Prod.fst
  let whereValues := where_.map Prod.snd
  let setClause := String.intercalate ", " (setColumns.map (fun col => col ++ " = ?"))
  let whereClause := String.intercalate " AND " (whereColumns.map (fun col => col ++ " = ?"))
  let query := "UPDATE " ++ tableName ++ " SET " ++ setClause ++ " WHERE " ++ whereClause
  match run db query (setValues ++ whereValues) with
  | .error e => { result := .error e, db := db, executed := [query] }
  | .ok (db', _lastID, changes) =>
    { result := .ok [textContent ("Rows updated successfully. Changes: " ++
        toString changes)],
      db := db',
      executed := [query] }

/-- server.ts lines 423-449. -/
def deleteRow (run : RunEngine) (db : SqliteDb) (tableName : String)
    (where_ : List (String × JValue)) : HandlerOut :=
  let whereColumns := where_.map Prod.fst
  let whereValues := where_.map Prod.snd
  let whereClause := String.intercalate " AND " (whereColumns.map (fun col => col ++ " = ?"))
  let query := "DELETE FROM " ++ tableName ++ " WHERE " ++ whereClause
  match run db query whereValues with
  | .error e => { result := .error e, db := db, executed := [query] }
  | .ok (db', _lastID, changes) =>
    { result := .ok [textContent ("Rows deleted successfully. Changes: " ++
        toString changes)],
      db := db',
      executed := [query] }

/-! ### The operation dispatcher (server.ts lines 142-217) -/

/-- The caller-supplied argument object. -/
abbrev ArgumentBag := List (String × JValue)

def lookupArg : ArgumentBag → String → Option JValue
  | [], _ => none
  | (k, v) :: rest, key => if k == key then some v else lookupArg rest key

def getArg (args : ArgumentBag) (key : String) : JValue :=
  (lookupArg args key).getD .jnull

/-- One argument guard of the dispatcher, e.g. `!args?.table_name ||
typeof args.table_name !== 'string'` (server.ts line 157): true when the
argument is missing, falsy, or of the wrong runtime type. -/
def argFails (args : ArgumentBag) (key expectedType : String) : Bool :=
  match lookupArg args key with
  | none => true
  | some v => !v.truthy || v.typeofStr != expectedType

/-- The six tool names of the switch (server.ts lines 152-197). -/
def toolNames : List String :=
  ["list_tables", "describe_table", "run_query", "insert_row", "update_row",
   "delete_row"]

/-- The required arguments and their expected runtime types, per
operation, exactly as guarded by the dispatcher (server.ts lines
157-196). -/
def requiredSpecs : String → List (String × String)
  | "describe_table" => [("table_name", "string")]
  | "run_query" => [("query", "string")]
  | "insert_row" => [("table_name", "string"), ("data", "object")]
  | "update_row" => [("table_name", "string"), ("data", "object"), ("where", "object")]
  | "delete_row" => [("table_name", "string"), ("where", "object")]
  | _ => []

/-- True when at least one of the operation's argument guards throws. -/
def someArgFails (name : String) (args : ArgumentBag) : Bool :=
  (requiredSpecs name).any (fun kt => argFails args kt.1 kt.2)

def HandlerOut.fail (db : SqliteDb) (msg : String) : HandlerOut :=
  { result := .error msg, db := db, executed := [] }

/-- The switch of the tool-call handler (server.ts lines 152-200): guard
the required arguments, then invoke the handler; any guard failure or
unknown name is a thrown error. -/
def callTool (eng : SelectEngine) (run : RunEngine) (db : SqliteDb)
    (name : String) (args : ArgumentBag) : HandlerOut :=
  match name with
  | "list_tables" => listTables db
  | "describe_table" =>
    if argFails args "table_name" "string" then
      .fail db "table_name is required and must be a string"
    else describeTable db (getArg args "table_name").asString
  | "run_query" =>
    if argFails args "query" "string" then
      .fail db "query is required and must be a string"
    else runQuery eng db (getArg args "query").asString
  | "insert_row" =>
    if argFails args "table_name" "string" then
      .fail db "table_name is required and must be a string"
    else if argFails args "data" "object" then
      .fail db "data is required and must be an object"
    else insertRow run db (getArg args "table_name").asString (getArg args "data").asObj
  | "update_row" =>
    if argFails args "table_name" "string" then
      .fail db "table_name is required and must be a string"
    else if argFails args "data" "object" then
      .fail db "data is required and must be an object"
    else if argFails args "where" "object" then
      .fail db "where is required and must be an object"
    else updateRow run db (getArg args "table_name").asString
      (getArg args "data").asObj (getArg args "where").asObj
  | "delete_row" =>
    if argFails args "table_name" "string" then
      .fail db "table_name is required and must be a string"
    else if argFails args "where" "object" then
      .fail db "where is required and must be an object"
    else deleteRow run db (getArg args "table_name").asString (getArg args "where").asObj
  | _ => .fail db ("Unknown tool: " ++ name)

/-- The envelope built by the catch branch (server.ts lines 207-215). -/
def errorEnvelope (name msg : String) : ToolCallResult :=
  { content := [textContent ("Error executing " ++ name ++ ": " ++ msg)],
    isError? := some true }

/-- The outcome of one dispatch: the returned envelope, the database state
afterwards, and the statement texts that reached the driver. -/
structure DispatchOut where
  response : ToolCallResult
  db : SqliteDb
  executed : List String

/-- The tool-call request handler (server.ts lines 142-217): on success
the envelope carries the handler's content and no `isError` field; any
thrown error is caught and wrapped by `errorEnvelope`. -/
def dispatch (eng : SelectEngine) (run : RunEngine) (db : SqliteDb)
    (name : String) (args : ArgumentBag) : DispatchOut :=
  let h := callTool eng run db name args
  match h.result with
  | .ok content =>
    { response := { content := content, isError? := none }, db := h.db,
      executed := h.executed }
  | .error msg =>
    { response := errorEnvelope name msg, db := h.db, executed := h.executed }

/-- The SQL keywords of the SQLite dialect, lower-cased (the engine
treats keywords case-insensitively). -/
def sqliteKeywords : List String :=
  ["abort", "action", "add", "after", "all", "alter", "always", "analyze",
   "and", "as", "asc", "attach", "autoincrement", "before", "begin",
   "between", "by", "cascade", "case", "cast", "check", "collate", "column",
   "commit", "conflict", "constraint", "create", "cross", "current",
   "current_date", "current_time", "current_timestamp", "database",
   "default", "deferrable", "deferred", "delete", "desc", "detach",
   "distinct", "do", "drop", "each", "else", "end", "escape", "except",
   "exclude", "exclusive", "exists", "explain", "fail", "filter", "first",
   "following", "for", "foreign", "from", "full", "generated", "glob",
   "group", "groups", "having", "if", "ignore", "immediate", "in", "index",
   "indexed", "initially", "inner", "insert", "instead", "intersect",
   "into", "is", "isnull", "join", "key", "last", "left", "like", "limit",
   "match", "materialized", "natural", "no", "not", "nothing", "notnull",
   "null", "nulls", "of", "offset", "on", "or", "order", "others", "outer",
   "over", "partition", "plan", "pragma", "preceding", "primary", "query",
   "raise", "range", "recursive", "references", "regexp", "reindex",
   "release", "rename", "replace", "restrict", "returning", "right",
   "rollback", "row", "rows", "savepoint", "select", "set", "table",
   "temp", "temporary", "then", "ties", "to", "transaction", "trigger",
   "unbounded", "union", "unique", "until", "update", "using", "vacuum",
   "values", "view", "virtual", "when", "where", "window", "with",
   "without"]

def isIdentChar (c : Char) : Bool :=
  (48 ≤ c.toNat && c.toNat ≤ 57) || (65 ≤ c.toNat && c.toNat ≤ 90) ||
    (97 ≤ c.toNat && c.toNat ≤ 122) || c == '_'

def isIdentStartChar (c : Char) : Bool :=
  (65 ≤ c.toNat && c.toNat ≤ 90) || (97 ≤ c.toNat && c.toNat ≤ 122) ||
    c == '_'

/-- Modelled from the spec: the identifier allow-list its statement-builder
section mandates before any identifier interpolation — non-empty,
alphanumeric/underscore characters only, not a SQL keyword.  server.ts
contains no such check; the definition exists to state that fact. -/
def isAllowedIdentifier (s : String) : Bool :=
  !s.data.isEmpty && s.data.all isIdentChar &&
    !(sqliteKeywords.contains (jsToLower s))

/-- Modelled from the SQLite lexer's identifier token: non-empty, first
character a letter or underscore, the rest alphanumeric or underscore, and
the lower-cased name not a SQL keyword.  On this domain each of the four
statement texts the handlers build reads the name as one identifier
token, so their parse is independent of which such name was inserted;
it is the domain on which the engine hypotheses of the theorems below
are faithful to a real SQLite engine. -/
def isSqlIdentToken (s : String) : Bool :=
  match s.data with
  | [] => false
  | c :: cs =>
    isIdentStartChar c && cs.all isIdentChar &&
      !(sqliteKeywords.contains (jsToLower s))

/-- A concrete engine for closed evaluations: every SELECT yields no
rows. -/
def engEmpty : SelectEngine := fun _ => .ok []

/-- A small concrete database for closed evaluations: two user tables and
one system table. -/
def exampleDb : SqliteDb :=
  [{ name := "users", objType := "table", columns := [],
     createSql := "CREATE TABLE users (id INTEGER)", rows := [] },
   { name := "sqlite_sequence", objType := "table", columns := [],
     createSql := "", rows := [] },
   { name := "aaa", objType := "table", columns := [], createSql := "",
     rows := [] }]

/-- A driver for closed evaluations whose conclusions do not depend on the
driver outcome (the statements they examine are recorded in the trace
before the driver answers): it errors on every statement. -/
def runReject : RunEngine := fun _ _ _ =>
  .error "SQLITE_MODEL: statement not modelled"

/-- Modelled from the SQLite engine, restricted to the statement texts the
closed theorems below hand to it; every branch records behaviour verified
against a real SQLite engine:
the INSERT with an empty column list and the two statements ending in a
dangling `WHERE ` are syntax errors rejected at parse time, while in
`DELETE FROM users -- WHERE ` the `--` starts a line comment, so the
statement parses as `DELETE FROM users` and removes every row of the
table, reporting the row count as `changes`. -/
def sqliteVerifiedRun : RunEngine := fun db sql _ =>
  if sql == "INSERT INTO users () VALUES ()" then
    .error "SQLITE_ERROR: near \")\": syntax error"
  else if sql == "DELETE FROM users WHERE " then
    .error "SQLITE_ERROR: incomplete input"
  else if sql == "UPDATE users SET a = ? WHERE " then
    .error "SQLITE_ERROR: incomplete input"
  else if sql == "DELETE FROM users -- WHERE " then
    match findTable db "users" with
    | some t => .ok (replaceRows db "users" [], 0, t.rows.length)
    | none => .error "SQLITE_ERROR: no such table: users"
  else
    .error "SQLITE_MODEL: statement not modelled"

/-- A concrete database whose `users` table holds three rows. -/
def usersDb3 : SqliteDb :=
  [{ name := "users", objType := "table",
     columns := [{ name := "id", type := "INTEGER", notnull := 0, pk := 0,
                   dflt_value := JValue.jnull }],
     createSql := "CREATE TABLE users (id INTEGER)",
     rows := [[("id", JValue.jnum 1)], [("id", JValue.jnum 2)],
              [("id", JValue.jnum 3)]] }]

/-! ## Helper lemmas -/

theorem strExt {a b : String} (h : a.data = b.data) : a = b := by
  cases a; cases b; cases h; rfl

theorem strData_append (a b : String) : (a ++ b).data = a.data ++ b.data := by
  cases a; cases b; rfl

theorem dispatch_eq (eng : SelectEngine) (run : RunEngine) (db : SqliteDb) (name : String)
    (args : ArgumentBag) :
    dispatch eng run db name args =
      { response :=
          match (callTool eng run db name args).result with
          | .ok c => { content := c, isError? := none }
          | .error m => errorEnvelope name m,
        db := (callTool eng run db name args).db,
        executed := (callTool eng run db name args).executed } := by
  unfold dispatch
  cases h : (callTool eng run db name args).result <;> simp [h]

theorem callTool_unknown (eng : SelectEngine) (run : RunEngine) (db : SqliteDb) (name : String)
    (args : ArgumentBag) (h : name ∉ toolNames) :
    callTool eng run db name args = .fail db ("Unknown tool: " ++ name) := by
  simp only [toolNames, List.mem_cons, List.not_mem_nil, or_false, not_or] at h
  obtain ⟨h₁, h₂, h₃, h₄, h₅, h₆⟩ := h
  unfold callTool
  split <;> simp_all

theorem dispatch_fail (eng : SelectEngine) (run : RunEngine) (db : SqliteDb) (name : String)
    (args : ArgumentBag) (msg : String)
    (h : callTool eng run db name args = .fail db msg) :
    dispatch eng run db name args =
      { response := errorEnvelope name msg, db := db, executed := [] } := by
  rw [dispatch_eq, h]
  rfl

theorem dispatch_executed_eq (eng : SelectEngine) (run : RunEngine) (db : SqliteDb) (name : String)
    (args : ArgumentBag) :
    (dispatch eng run db name args).executed = (callTool eng run db name args).executed := by
  rw [dispatch_eq]

theorem dispatch_db_eq (eng : SelectEngine) (run : RunEngine) (db : SqliteDb) (name : String)
    (args : ArgumentBag) :
    (dispatch eng run db name args).db = (callTool eng run db name args).db := by
  rw [dispatch_eq]

theorem dispatch_response_ok (eng : SelectEngine) (run : RunEngine) (db : SqliteDb) (name : String)
    (args : ArgumentBag) (c : List MCPContent)
    (h : (callTool eng run db name args).result = .ok c) :
    (dispatch eng run db name args).response = { content := c, isError? := none } := by
  rw [dispatch_eq, h]

theorem dispatch_response_error (eng : SelectEngine) (run : RunEngine) (db : SqliteDb) (name : String)
    (args : ArgumentBag) (m : String)
    (h : (callTool eng run db name args).result = .error m) :
    (dispatch eng run db name args).response = errorEnvelope name m := by
  rw [dispatch_eq, h]

theorem beq_tn_data : (("table_name" : String) == "data") = false := by decide

theorem beq_tn_where : (("table_name" : String) == "where") = false := by decide

theorem beq_data_where : (("data" : String) == "where") = false := by decide

theorem ident_token_nonempty (t : String) (h : isSqlIdentToken t = true) :
    t.data.isEmpty = false := by
  unfold isSqlIdentToken at h
  cases hd : t.data with
  | nil => rw [hd] at h; simp at h
  | cons c cs => rfl

theorem insertRow_executed (run : RunEngine) (db : SqliteDb) (t : String)
    (data : List (String × JValue)) :
    (insertRow run db t data).executed =
      ["INSERT INTO " ++ t ++ " (" ++ String.intercalate ", " (data.map Prod.fst) ++
        ") VALUES (" ++ String.intercalate ", " (data.map (fun _ => "?")) ++ ")"] := by
  unfold insertRow
  dsimp only
  split <;> simp [List.map_map, Function.comp_def]

theorem updateRow_executed (run : RunEngine) (db : SqliteDb) (t : String)
    (data w : List (String × JValue)) :
    (updateRow run db t data w).executed =
      ["UPDATE " ++ t ++ " SET " ++
        String.intercalate ", " (data.map (fun p => p.1 ++ " = ?")) ++ " WHERE " ++
        String.intercalate " AND " (w.map (fun p => p.1 ++ " = ?"))] := by
  unfold updateRow
  dsimp only
  split <;> simp [List.map_map, Function.comp_def]

theorem deleteRow_executed (run : RunEngine) (db : SqliteDb) (t : String)
    (w : List (String × JValue)) :
    (deleteRow run db t w).executed =
      ["DELETE FROM " ++ t ++ " WHERE " ++
        String.intercalate " AND " (w.map (fun p => p.1 ++ " = ?"))] := by
  unfold deleteRow
  dsimp only
  split <;> simp [List.map_map, Function.comp_def]

theorem callTool_describe_ok (eng : SelectEngine) (run : RunEngine) (db : SqliteDb) (t : String)
    (h : t.data.isEmpty = false) :
    callTool eng run db "describe_table" [("table_name", .jstr t)] = describeTable db t := by
  unfold callTool
  rw [show argFails [("table_name", JValue.jstr t)] "table_name" "string" = false from by
    simp [argFails, lookupArg, JValue.truthy, JValue.typeofStr, h]]
  simp [getArg, lookupArg, JValue.asString]

theorem callTool_insert_ok (eng : SelectEngine) (run : RunEngine) (db : SqliteDb) (t : String)
    (data : List (String × JValue)) (h : t.data.isEmpty = false) :
    callTool eng run db "insert_row" [("table_name", .jstr t), ("data", .jobj data)] =
      insertRow run db t data := by
  unfold callTool
  rw [show argFails [("table_name", JValue.jstr t), ("data", JValue.jobj data)]
      "table_name" "string" = false from by
    simp [argFails, lookupArg, JValue.truthy, JValue.typeofStr, h]]
  rw [show argFails [("table_name", JValue.jstr t), ("data", JValue.jobj data)]
      "data" "object" = false from by
    simp [argFails, lookupArg, beq_tn_data, JValue.truthy, JValue.typeofStr]]
  simp [getArg, lookupArg, beq_tn_data, JValue.asString, JValue.asObj]

theorem callTool_update_ok (eng : SelectEngine) (run : RunEngine) (db : SqliteDb) (t : String)
    (data w : List (String × JValue)) (h : t.data.isEmpty = false) :
    callTool eng run db "update_row"
      [("table_name", .jstr t), ("data", .jobj data), ("where", .jobj w)] =
      updateRow run db t data w := by
  unfold callTool
  rw [show argFails [("table_name", JValue.jstr t), ("data", JValue.jobj data),
      ("where", JValue.jobj w)] "table_name" "string" = false from by
    simp [argFails, lookupArg, JValue.truthy, JValue.typeofStr, h]]
  rw [show argFails [("table_name", JValue.jstr t), ("data", JValue.jobj data),
      ("where", JValue.jobj w)] "data" "object" = false from by
    simp [argFails, lookupArg, beq_tn_data, JValue.truthy, JValue.typeofStr]]
  rw [show argFails [("table_name", JValue.jstr t), ("data", JValue.jobj data),
      ("where", JValue.jobj w)] "where" "object" = false from by
    simp [argFails, lookupArg, beq_tn_where, beq_data_where, JValue.truthy,
      JValue.typeofStr]]
  simp [getArg, lookupArg, beq_tn_data, beq_tn_where, beq_data_where,
    JValue.asString, JValue.asObj]

theorem callTool_delete_ok (eng : SelectEngine) (run : RunEngine) (db : SqliteDb) (t : String)
    (w : List (String × JValue)) (h : t.data.isEmpty = false) :
    callTool eng run db "delete_row" [("table_name", .jstr t), ("where", .jobj w)] =
      deleteRow run db t w := by
  unfold callTool
  rw [show argFails [("table_name", JValue.jstr t), ("where", JValue.jobj w)]
      "table_name" "string" = false from by
    simp [argFails, lookupArg, JValue.truthy, JValue.typeofStr, h]]
  rw [show argFails [("table_name", JValue.jstr t), ("where", JValue.jobj w)]
      "where" "object" = false from by
    simp [argFails, lookupArg, beq_tn_where, JValue.truthy, JValue.typeofStr]]
  simp [getArg, lookupArg, beq_tn_where, JValue.asString, JValue.asObj]

/-! ## The claims -/

/-- Claim C1, counterexample: the crafted table name
`users; DROP TABLE users` fails the allow-list the spec mandates, yet
dispatching `describe_table` with it interpolates it verbatim into the
pragma text and hands that statement to the database — no check bars
it. -/
theorem identifier_allowlist_counterexample :
    isAllowedIdentifier "users; DROP TABLE users" = false ∧
    (dispatch engEmpty runReject [] "describe_table"
        [("table_name", .jstr "users; DROP TABLE users")]).executed.head? =
      some "PRAGMA table_info(users; DROP TABLE users)" :=
  ⟨by decide, by decide⟩

/-- Claim C1 (amended): none of the four identifier-bearing operations
applies any allow-list check.  For every non-empty table name — allowed or
not — the name is concatenated verbatim into the statement text and that
statement is handed to the database (the code relies on the engine to
reject malformed identifiers). -/
theorem identifier_interpolated_unchecked (eng : SelectEngine) (run : RunEngine) (db : SqliteDb)
    (t : String) (data w : List (String × JValue)) (h : t.data.isEmpty = false) :
    (dispatch eng run db "describe_table" [("table_name", .jstr t)]).executed.head? =
      some ("PRAGMA table_info(" ++ t ++ ")") ∧
    (dispatch eng run db "insert_row"
        [("table_name", .jstr t), ("data", .jobj data)]).executed =
      ["INSERT INTO " ++ t ++ " (" ++ String.intercalate ", " (data.map Prod.fst) ++
        ") VALUES (" ++ String.intercalate ", " (data.map (fun _ => "?")) ++ ")"] ∧
    (dispatch eng run db "update_row"
        [("table_name", .jstr t), ("data", .jobj data), ("where", .jobj w)]).executed =
      ["UPDATE " ++ t ++ " SET " ++
        String.intercalate ", " (data.map (fun p => p.1 ++ " = ?")) ++ " WHERE " ++
        String.intercalate " AND " (w.map (fun p => p.1 ++ " = ?"))] ∧
    (dispatch eng run db "delete_row"
        [("table_name", .jstr t), ("where", .jobj w)]).executed =
      ["DELETE FROM " ++ t ++ " WHERE " ++
        String.intercalate " AND " (w.map (fun p => p.1 ++ " = ?"))] := by
  refine ⟨?_, ?_, ?_, ?_⟩
  · rw [dispatch_executed_eq, callTool_describe_ok eng run db t h]
    rfl
  · rw [dispatch_executed_eq, callTool_insert_ok eng run db t data h,
      insertRow_executed]
  · rw [dispatch_executed_eq, callTool_update_ok eng run db t data w h,
      updateRow_executed]
  · rw [dispatch_executed_eq, callTool_delete_ok eng run db t w h, deleteRow_executed]

/-- Witness for `identifier_interpolated_unchecked` at a name that fails
the allow-list. -/
theorem identifier_interpolated_unchecked_witness :
    (dispatch engEmpty runReject [] "describe_table"
        [("table_name", .jstr "users OR 1=1")]).executed.head? =
      some ("PRAGMA table_info(" ++ "users OR 1=1" ++ ")") ∧
    (dispatch engEmpty runReject [] "insert_row"
        [("table_name", .jstr "users OR 1=1"), ("data", .jobj [("a", .jnum 1)])]).executed =
      ["INSERT INTO " ++ "users OR 1=1" ++ " (" ++
        String.intercalate ", " ([("a", JValue.jnum 1)].map Prod.fst) ++
        ") VALUES (" ++
        String.intercalate ", " ([("a", JValue.jnum 1)].map (fun _ => "?")) ++ ")"] ∧
    (dispatch engEmpty runReject [] "update_row"
        [("table_name", .jstr "users OR 1=1"), ("data", .jobj [("a", .jnum 1)]),
         ("where", .jobj [("b", .jnum 2)])]).executed =
      ["UPDATE " ++ "users OR 1=1" ++ " SET " ++
        String.intercalate ", " ([("a", JValue.jnum 1)].map (fun p => p.1 ++ " = ?")) ++
        " WHERE " ++
        String.intercalate " AND " ([("b", JValue.jnum 2)].map (fun p => p.1 ++ " = ?"))] ∧
    (dispatch engEmpty runReject [] "delete_row"
        [("table_name", .jstr "users OR 1=1"), ("where", .jobj [("b", .jnum 2)])]).executed =
      ["DELETE FROM " ++ "users OR 1=1" ++ " WHERE " ++
        String.intercalate " AND " ([("b", JValue.jnum 2)].map (fun p => p.1 ++ " = ?"))] :=
  identifier_interpolated_unchecked engEmpty runReject [] "users OR 1=1"
    [("a", JValue.jnum 1)] [("b", JValue.jnum 2)] (by decide)

/-- Claim C3, counterexample: the validator rejects `DELETE FROM users`,
but its reason is the string `Only SELECT queries are allowed for security
reasons` (server.ts line 344), not `only SELECT queries are permitted` as
claimed. -/
theorem validator_reason_counterexample :
    validateRead "DELETE FROM users" =
      some "Only SELECT queries are allowed for security reasons" ∧
    ("Only SELECT queries are allowed for security reasons" : String) ≠
      "only SELECT queries are permitted" :=
  ⟨by decide, by decide⟩

/-- Claim C3 (amended): the read-query gate accepts a query iff its
trimmed and lower-cased form starts with the prefix `select`; every other
input is rejected, with the reason `Only SELECT queries are allowed for
security reasons`. -/
theorem validator_select_prefix (q : String) :
    validateRead q =
      (if jsStartsWith (jsToLower (jsTrim q)) "select" then none
       else some "Only SELECT queries are allowed for security reasons") := by
  unfold validateRead
  cases h : jsStartsWith (jsToLower (jsTrim q)) "select" <;> simp [h]

/-- Claim C4, counterexample: dispatching the unknown name `drop_table`
yields an error envelope, but its text is the catch-branch wrapping
`Error executing drop_table: Unknown tool: drop_table` (server.ts line
211), not the bare `Unknown tool: drop_table` the claim states. -/
theorem unknown_tool_text_counterexample :
    (dispatch engEmpty runReject [] "drop_table" []).response =
      { content := [textContent "Error executing drop_table: Unknown tool: drop_table"],
        isError? := some true } ∧
    ("Error executing drop_table: Unknown tool: drop_table" : String) ≠
      "Unknown tool: drop_table" :=
  ⟨by decide, by decide⟩

/-- Claim C4 (amended): for every operation name outside the six known
names, dispatch returns an error envelope whose text is
`Error executing <name>: Unknown tool: <name>` (which carries the claimed
`Unknown tool: <name>` as its suffix), no statement reaches the database,
and the database is unchanged. -/
theorem unknown_tool_envelope (eng : SelectEngine) (run : RunEngine) (db : SqliteDb) (name : String)
    (args : ArgumentBag) (h : name ∉ toolNames) :
    (dispatch eng run db name args).response =
      errorEnvelope name ("Unknown tool: " ++ name) ∧
    (dispatch eng run db name args).executed = [] ∧
    (dispatch eng run db name args).db = db := by
  rw [dispatch_fail eng run db name args _ (callTool_unknown eng run db name args h)]
  exact ⟨rfl, rfl, rfl⟩

/-- Witness for `unknown_tool_envelope` at the concrete name
`drop_row`. -/
theorem unknown_tool_envelope_witness :
    (dispatch engEmpty runReject [] "drop_row" []).response =
      errorEnvelope "drop_row" ("Unknown tool: " ++ "drop_row") ∧
    (dispatch engEmpty runReject [] "drop_row" []).executed = [] ∧
    (dispatch engEmpty runReject [] "drop_row" []).db = [] :=
  unknown_tool_envelope engEmpty runReject [] "drop_row" [] (by decide)

/-- Claim C2, counterexample: the empty query string does not start with
`select` after trim and lower-casing, and dispatching it does return an
error envelope — but the reason is the argument guard's
`query is required and must be a string` (the empty string is falsy, so
the guard at server.ts line 163 throws first), not the validator's
rejection reason. -/
theorem run_query_empty_counterexample :
    jsStartsWith (jsToLower (jsTrim "")) "select" = false ∧
    (dispatch engEmpty runReject [] "run_query" [("query", .jstr "")]).response =
      errorEnvelope "run_query" "query is required and must be a string" ∧
    errorEnvelope "run_query" "query is required and must be a string" ≠
      errorEnvelope "run_query" "Only SELECT queries are allowed for security reasons" :=
  ⟨by decide, by decide, by decide⟩

/-- Claim C2 (amended): for every non-empty query string whose trimmed,
lower-cased form does not start with `select`, dispatching `run_query`
returns an error envelope carrying the validator's rejection reason, no
statement is handed to the database for that call, and the database state
is unchanged.  (The empty query is instead rejected by the argument guard,
with a different message — see the counterexample.) -/
theorem run_query_rejected_before_db (eng : SelectEngine) (run : RunEngine) (db : SqliteDb)
    (q : String) (h₀ : q.data.isEmpty = false)
    (h₁ : jsStartsWith (jsToLower (jsTrim q)) "select" = false) :
    (dispatch eng run db "run_query" [("query", .jstr q)]).response =
      errorEnvelope "run_query" "Only SELECT queries are allowed for security reasons" ∧
    (dispatch eng run db "run_query" [("query", .jstr q)]).executed = [] ∧
    (dispatch eng run db "run_query" [("query", .jstr q)]).db = db := by
  have hguard : argFails [("query", JValue.jstr q)] "query" "string" = false := by
    simp [argFails, lookupArg, JValue.truthy, JValue.typeofStr, h₀]
  have hct : callTool eng run db "run_query" [("query", .jstr q)] =
      HandlerOut.fail db "Only SELECT queries are allowed for security reasons" := by
    unfold callTool
    rw [hguard]
    simp [getArg, lookupArg, JValue.asString, runQuery, validateRead, h₁,
      HandlerOut.fail]
  rw [dispatch_fail eng run db _ _ _ hct]
  exact ⟨rfl, rfl, rfl⟩

/-- Witness for `run_query_rejected_before_db` at `DELETE FROM users`. -/
theorem run_query_rejected_before_db_witness :
    (dispatch engEmpty runReject [] "run_query" [("query", .jstr "DELETE FROM users")]).response =
      errorEnvelope "run_query" "Only SELECT queries are allowed for security reasons" ∧
    (dispatch engEmpty runReject [] "run_query" [("query", .jstr "DELETE FROM users")]).executed = [] ∧
    (dispatch engEmpty runReject [] "run_query" [("query", .jstr "DELETE FROM users")]).db = [] :=
  run_query_rejected_before_db engEmpty runReject [] "DELETE FROM users" (by decide) (by decide)

/-- Claim C6, counterexample: dispatching `insert_row` with an empty
`data` mapping passes the dispatcher's argument guards (an empty object is
truthy and of type `object`), the INSERT statement with an empty column
list is built and handed to the database, and the error envelope comes
from the driver's syntax error — not from caller-level validation. -/
theorem insert_empty_data_counterexample :
    someArgFails "insert_row"
      [("table_name", JValue.jstr "users"), ("data", JValue.jobj [])] = false ∧
    (dispatch engEmpty sqliteVerifiedRun [] "insert_row"
        [("table_name", .jstr "users"), ("data", .jobj [])]).executed =
      ["INSERT INTO users () VALUES ()"] ∧
    (dispatch engEmpty sqliteVerifiedRun [] "insert_row"
        [("table_name", .jstr "users"), ("data", .jobj [])]).response =
      errorEnvelope "insert_row" "SQLITE_ERROR: near \")\": syntax error" :=
  ⟨by decide, by decide, by decide⟩

/-- Helper: the INSERT text built from an empty column list. -/
theorem insert_empty_query (t : String) :
    "INSERT INTO " ++ t ++ " (" ++ String.intercalate ", " ([] : List String) ++
      ") VALUES (" ++ String.intercalate ", " ([] : List String) ++ ")" =
      "INSERT INTO " ++ t ++ " () VALUES ()" := by
  have hnil : String.intercalate ", " ([] : List String) = "" := rfl
  rw [hnil]
  apply strExt
  have hed : ("" : String).data = [] := rfl
  simp only [strData_append, hed, List.append_assoc, List.append_nil]
  exact congrArg _ (congrArg _ (by decide))

/-- Claim C6 (amended): an empty `data` mapping passes the dispatcher's
argument guards (an empty object is truthy and of type `object`);
`insert_row` builds `INSERT INTO <t> () VALUES ()` and hands that
statement to the driver, and — for an identifier-token name, on which
that text is a syntax error (hypothesis `hrun`, recorded from behaviour
verified against a real SQLite engine) — the driver, not caller-level
validation, rejects the call, which returns an error envelope with the
rows unchanged. -/
theorem insert_empty_data_driver_error (eng : SelectEngine) (run : RunEngine)
    (db : SqliteDb) (t : String) (hid : isSqlIdentToken t = true)
    (hrun : ∀ d params, ∃ m,
      run d ("INSERT INTO " ++ t ++ " () VALUES ()") params = Except.error m) :
    someArgFails "insert_row"
      [("table_name", JValue.jstr t), ("data", JValue.jobj [])] = false ∧
    (dispatch eng run db "insert_row"
        [("table_name", .jstr t), ("data", .jobj [])]).executed =
      ["INSERT INTO " ++ t ++ " () VALUES ()"] ∧
    (∃ m, (dispatch eng run db "insert_row"
        [("table_name", .jstr t), ("data", .jobj [])]).response =
      errorEnvelope "insert_row" m) ∧
    (dispatch eng run db "insert_row"
        [("table_name", .jstr t), ("data", .jobj [])]).db = db := by
  have hne : t.data.isEmpty = false := ident_token_nonempty t hid
  have hct := callTool_insert_ok eng run db t [] hne
  obtain ⟨m, hm⟩ := hrun db []
  have hIns : insertRow run db t [] =
      { result := .error m, db := db,
        executed := ["INSERT INTO " ++ t ++ " () VALUES ()"] } := by
    unfold insertRow
    simp only [List.map_nil]
    rw [insert_empty_query, hm]
  refine ⟨?_, ?_, ⟨m, ?_⟩, ?_⟩
  · simp [someArgFails, requiredSpecs, argFails, lookupArg, beq_tn_data,
      JValue.truthy, JValue.typeofStr, hne]
  · rw [dispatch_executed_eq, hct, hIns]
  · rw [dispatch_response_error eng run db "insert_row" _ m (by rw [hct, hIns])]
  · rw [dispatch_db_eq, hct, hIns]

/-- Witness for `insert_empty_data_driver_error` at the table name
`users`, with the engine hypothesis discharged by the verified SQLite
behaviour table. -/
theorem insert_empty_data_driver_error_witness :
    someArgFails "insert_row"
      [("table_name", JValue.jstr "users"), ("data", JValue.jobj [])] = false ∧
    (dispatch engEmpty sqliteVerifiedRun [] "insert_row"
        [("table_name", .jstr "users"), ("data", .jobj [])]).executed =
      ["INSERT INTO " ++ "users" ++ " () VALUES ()"] ∧
    (∃ m, (dispatch engEmpty sqliteVerifiedRun [] "insert_row"
        [("table_name", .jstr "users"), ("data", .jobj [])]).response =
      errorEnvelope "insert_row" m) ∧
    (dispatch engEmpty sqliteVerifiedRun [] "insert_row"
        [("table_name", .jstr "users"), ("data", .jobj [])]).db = [] := by
  apply insert_empty_data_driver_error engEmpty sqliteVerifiedRun [] "users"
    (by decide)
  intro d params
  refine ⟨"SQLITE_ERROR: near \")\": syntax error", ?_⟩
  rw [show ("INSERT INTO " ++ "users" ++ " () VALUES ()" : String) =
    "INSERT INTO users () VALUES ()" from by decide]
  rfl

theorem str_append_empty (a : String) : a ++ "" = a := by
  apply strExt
  simp [strData_append, show ("" : String).data = [] from rfl]

theorem listTables_ok_text (db : SqliteDb) (c : List MCPContent)
    (h : (listTables db).result = .ok c) :
    c.all (fun b => b.type == "text") = true := by
  unfold listTables at h
  simp only [Except.ok.injEq] at h
  subst h
  rfl

theorem describeTable_ok_text (db : SqliteDb) (t : String) (c : List MCPContent)
    (h : (describeTable db t).result = .ok c) :
    c.all (fun b => b.type == "text") = true := by
  unfold describeTable at h
  simp only [Except.ok.injEq] at h
  subst h
  rfl

theorem runQuery_ok_text (eng : SelectEngine) (db : SqliteDb) (q : String)
    (c : List MCPContent) (h : (runQuery eng db q).result = .ok c) :
    c.all (fun b => b.type == "text") = true := by
  unfold runQuery at h
  split at h
  · simp at h
  · split at h
    · simp at h
    · simp only [Except.ok.injEq] at h
      subst h
      rfl

theorem insertRow_ok_text (run : RunEngine) (db : SqliteDb) (t : String)
    (data : List (String × JValue)) (c : List MCPContent)
    (h : (insertRow run db t data).result = .ok c) :
    c.all (fun b => b.type == "text") = true := by
  unfold insertRow at h
  dsimp only at h
  split at h
  · simp at h
  · simp only [Except.ok.injEq] at h
    subst h
    rfl

theorem updateRow_ok_text (run : RunEngine) (db : SqliteDb) (t : String)
    (data w : List (String × JValue)) (c : List MCPContent)
    (h : (updateRow run db t data w).result = .ok c) :
    c.all (fun b => b.type == "text") = true := by
  unfold updateRow at h
  dsimp only at h
  split at h
  · simp at h
  · simp only [Except.ok.injEq] at h
    subst h
    rfl

theorem deleteRow_ok_text (run : RunEngine) (db : SqliteDb) (t : String)
    (w : List (String × JValue)) (c : List MCPContent)
    (h : (deleteRow run db t w).result = .ok c) :
    c.all (fun b => b.type == "text") = true := by
  unfold deleteRow at h
  dsimp only at h
  split at h
  · simp at h
  · simp only [Except.ok.injEq] at h
    subst h
    rfl

theorem callTool_ok_text (eng : SelectEngine) (run : RunEngine) (db : SqliteDb) (name : String)
    (args : ArgumentBag) (c : List MCPContent)
    (h : (callTool eng run db name args).result = .ok c) :
    c.all (fun b => b.type == "text") = true := by
  unfold callTool at h
  split at h
  · exact listTables_ok_text _ _ h
  · split at h
    · simp [HandlerOut.fail] at h
    · exact describeTable_ok_text _ _ _ h
  · split at h
    · simp [HandlerOut.fail] at h
    · exact runQuery_ok_text _ _ _ _ h
  · split at h
    · simp [HandlerOut.fail] at h
    · split at h
      · simp [HandlerOut.fail] at h
      · exact insertRow_ok_text _ _ _ _ _ h
  · split at h
    · simp [HandlerOut.fail] at h
    · split at h
      · simp [HandlerOut.fail] at h
      · split at h
        · simp [HandlerOut.fail] at h
        · exact updateRow_ok_text _ _ _ _ _ _ h
  · split at h
    · simp [HandlerOut.fail] at h
    · split at h
      · simp [HandlerOut.fail] at h
      · exact deleteRow_ok_text _ _ _ _ _ h
  · simp [HandlerOut.fail] at h

/-- Claim C7, counterexample: a successful `list_tables` dispatch returns
an envelope with no `isError` field at all (the success branch at
server.ts lines 202-204 returns only `content`), so the dispatcher's
output does not always contain a boolean `isError` field. -/
theorem success_envelope_counterexample :
    (dispatch engEmpty runReject [] "list_tables" []).response.isError? = none ∧
    (dispatch engEmpty runReject [] "list_tables" []).response.content =
      [textContent "Found 0 tables:\n"] :=
  ⟨by decide, by decide⟩

/-- Claim C7 (amended): every value the dispatcher returns is an envelope
whose content is a sequence of `text` blocks; the `isError` field is
present (and `true`) exactly on the catch path and omitted on success —
it is never `false`. -/
theorem dispatch_envelope_shape (eng : SelectEngine) (run : RunEngine) (db : SqliteDb)
    (name : String) (args : ArgumentBag) :
    ((dispatch eng run db name args).response.content.all
      (fun b => b.type == "text")) = true ∧
    ((dispatch eng run db name args).response.isError? = none ∨
      (dispatch eng run db name args).response.isError? = some true) := by
  cases h : (callTool eng run db name args).result with
  | error m =>
    rw [dispatch_response_error eng run db name args m h]
    exact ⟨rfl, Or.inr rfl⟩
  | ok c =>
    rw [dispatch_response_ok eng run db name args c h]
    exact ⟨callTool_ok_text eng run db name args c h, Or.inl rfl⟩

/-- Claim C8: `list_tables` is deterministic and idempotent over an
unchanged database: it does not modify the database, it issues exactly the
fixed catalog statement, a second call returns the identical envelope, and
its output names are sorted and exclude the system tables. -/
theorem list_tables_deterministic (eng : SelectEngine) (run : RunEngine) (db : SqliteDb) :
    (dispatch eng run ((dispatch eng run db "list_tables" []).db) "list_tables" []).response =
      (dispatch eng run db "list_tables" []).response ∧
    (dispatch eng run db "list_tables" []).db = db ∧
    (dispatch eng run db "list_tables" []).executed = [listTablesQuery] ∧
    (dispatch eng run db "list_tables" []).response =
      { content := [textContent ("Found " ++ toString (listTableNames db).length ++
          " tables:\n" ++ String.intercalate "\n"
            ((listTableNames db).map (fun n => "- " ++ n)))],
        isError? := none } ∧
    List.Sorted strLeP (listTableNames db) ∧
    ∀ n ∈ listTableNames db, likeSqlitePrefix n = false := by
  have hdb : (dispatch eng run db "list_tables" []).db = db := by
    rw [dispatch_db_eq]
    rfl
  refine ⟨?_, hdb, ?_, ?_, ?_, ?_⟩
  · rw [hdb]
  · rw [dispatch_executed_eq]
    rfl
  · apply dispatch_response_ok
    rfl
  · unfold listTableNames
    exact List.sorted_insertionSort strLeP _
  · intro n hn
    unfold listTableNames at hn
    rw [List.mem_insertionSort] at hn
    obtain ⟨tbl, htbl, rfl⟩ := List.mem_map.mp hn
    have hf := (List.mem_filter.mp htbl).2
    simp only [Bool.and_eq_true, Bool.not_eq_true'] at hf
    exact hf.2

/-- Claim C9, counterexample: the claim is false of the program.  With
table name `users --` and an empty `where`, the built text is
`DELETE FROM users -- WHERE `, in which `--` starts a line comment: the
engine (behaviour verified against a real SQLite engine) parses it as
`DELETE FROM users` and executes it, deleting every row of the table and
returning a success envelope — an unconditional whole-table mutation,
where the claim promises a rejected statement, an error envelope and
unchanged rows. -/
theorem empty_where_comment_injection_counterexample :
    (dispatch engEmpty sqliteVerifiedRun usersDb3 "delete_row"
        [("table_name", .jstr "users --"), ("where", .jobj [])]).executed =
      ["DELETE FROM users -- WHERE "] ∧
    (dispatch engEmpty sqliteVerifiedRun usersDb3 "delete_row"
        [("table_name", .jstr "users --"), ("where", .jobj [])]).response =
      { content := [textContent "Rows deleted successfully. Changes: 3"],
        isError? := none } ∧
    ((findTable (dispatch engEmpty sqliteVerifiedRun usersDb3 "delete_row"
        [("table_name", .jstr "users --"), ("where", .jobj [])]).db "users").map
      (fun tb => tb.rows.length)) = some 0 ∧
    (findTable usersDb3 "users").map (fun tb => tb.rows.length) = some 3 :=
  ⟨by decide, by decide, by decide, by decide⟩

/-- Claim C9 (amended): for an identifier-token table name (and, for
`update_row`, identifier-token data keys), the statements built from an
empty `where` mapping end in a dangling `WHERE `; such a statement is a
syntax error (hypotheses `hd` and `hu`, recorded from behaviour verified
against a real SQLite engine), so the call returns an error envelope and
the table's rows are unchanged.  Outside that domain the claim fails: a
name containing `--` turns the statement into a valid unconditional
mutation — see the counterexample. -/
theorem empty_where_ident_rejected (eng : SelectEngine) (run : RunEngine)
    (db : SqliteDb) (t : String) (data : List (String × JValue))
    (hid : isSqlIdentToken t = true)
    (hkeys : ∀ p ∈ data, isSqlIdentToken p.1 = true)
    (hd : ∀ d params, ∃ m,
      run d ("DELETE FROM " ++ t ++ " WHERE ") params = Except.error m)
    (hu : ∀ d params, ∃ m,
      run d ("UPDATE " ++ t ++ " SET " ++
        String.intercalate ", " (data.map (fun p => p.1 ++ " = ?")) ++
        " WHERE ") params = Except.error m) :
    (dispatch eng run db "delete_row"
        [("table_name", .jstr t), ("where", .jobj [])]).executed =
      ["DELETE FROM " ++ t ++ " WHERE "] ∧
    (∃ m, (dispatch eng run db "delete_row"
        [("table_name", .jstr t), ("where", .jobj [])]).response =
      errorEnvelope "delete_row" m) ∧
    (dispatch eng run db "delete_row"
        [("table_name", .jstr t), ("where", .jobj [])]).db = db ∧
    (dispatch eng run db "update_row"
        [("table_name", .jstr t), ("data", .jobj data), ("where", .jobj [])]).executed =
      ["UPDATE " ++ t ++ " SET " ++
        String.intercalate ", " (data.map (fun p => p.1 ++ " = ?")) ++ " WHERE "] ∧
    (∃ m, (dispatch eng run db "update_row"
        [("table_name", .jstr t), ("data", .jobj data),
         ("where", .jobj [])]).response = errorEnvelope "update_row" m) ∧
    (dispatch eng run db "update_row"
        [("table_name", .jstr t), ("data", .jobj data), ("where", .jobj [])]).db =
      db := by
  have hne : t.data.isEmpty = false := ident_token_nonempty t hid
  have hctd := callTool_delete_ok eng run db t [] hne
  have hctu := callTool_update_ok eng run db t data [] hne
  obtain ⟨m₁, hm₁⟩ := hd db []
  obtain ⟨m₂, hm₂⟩ := hu db (data.map Prod.snd ++ [])
  have hDel : deleteRow run db t [] =
      { result := .error m₁, db := db,
        executed := ["DELETE FROM " ++ t ++ " WHERE "] } := by
    unfold deleteRow
    simp only [List.map_nil]
    rw [show String.intercalate " AND " ([] : List String) = "" from rfl,
      str_append_empty, hm₁]
  have hUpd : updateRow run db t data [] =
      { result := .error m₂, db := db,
        executed := ["UPDATE " ++ t ++ " SET " ++
          String.intercalate ", " (data.map (fun p => p.1 ++ " = ?")) ++
          " WHERE "] } := by
    unfold updateRow
    simp only [List.map_nil, List.map_map, Function.comp_def]
    rw [show String.intercalate " AND " ([] : List String) = "" from rfl,
      str_append_empty, hm₂]
  refine ⟨?_, ⟨m₁, ?_⟩, ?_, ?_, ⟨m₂, ?_⟩, ?_⟩
  · rw [dispatch_executed_eq, hctd, hDel]
  · rw [dispatch_response_error eng run db "delete_row" _ m₁ (by rw [hctd, hDel])]
  · rw [dispatch_db_eq, hctd, hDel]
  · rw [dispatch_executed_eq, hctu, hUpd]
  · rw [dispatch_response_error eng run db "update_row" _ m₂ (by rw [hctu, hUpd])]
  · rw [dispatch_db_eq, hctu, hUpd]

/-- Witness for `empty_where_ident_rejected` at the table `users` with a
one-column `data` mapping, the engine hypotheses discharged by the
verified SQLite behaviour table. -/
theorem empty_where_ident_rejected_witness :
    (dispatch engEmpty sqliteVerifiedRun [] "delete_row"
        [("table_name", .jstr "users"), ("where", .jobj [])]).executed =
      ["DELETE FROM " ++ "users" ++ " WHERE "] ∧
    (∃ m, (dispatch engEmpty sqliteVerifiedRun [] "delete_row"
        [("table_name", .jstr "users"), ("where", .jobj [])]).response =
      errorEnvelope "delete_row" m) ∧
    (dispatch engEmpty sqliteVerifiedRun [] "delete_row"
        [("table_name", .jstr "users"), ("where", .jobj [])]).db = [] ∧
    (dispatch engEmpty sqliteVerifiedRun [] "update_row"
        [("table_name", .jstr "users"), ("data", .jobj [("a", JValue.jnum 1)]),
         ("where", .jobj [])]).executed =
      ["UPDATE " ++ "users" ++ " SET " ++
        String.intercalate ", " ([("a", JValue.jnum 1)].map (fun p => p.1 ++ " = ?")) ++
        " WHERE "] ∧
    (∃ m, (dispatch engEmpty sqliteVerifiedRun [] "update_row"
        [("table_name", .jstr "users"), ("data", .jobj [("a", JValue.jnum 1)]),
         ("where", .jobj [])]).response = errorEnvelope "update_row" m) ∧
    (dispatch engEmpty sqliteVerifiedRun [] "update_row"
        [("table_name", .jstr "users"), ("data", .jobj [("a", JValue.jnum 1)]),
         ("where", .jobj [])]).db = [] := by
  apply empty_where_ident_rejected engEmpty sqliteVerifiedRun [] "users"
    [("a", JValue.jnum 1)] (by decide) (by decide)
  · intro d params
    refine ⟨"SQLITE_ERROR: incomplete input", ?_⟩
    rw [show ("DELETE FROM " ++ "users" ++ " WHERE " : String) =
      "DELETE FROM users WHERE " from by decide]
    rfl
  · intro d params
    refine ⟨"SQLITE_ERROR: incomplete input", ?_⟩
    rw [show ("UPDATE " ++ "users" ++ " SET " ++
      String.intercalate ", " ([("a", JValue.jnum 1)].map (fun p => p.1 ++ " = ?")) ++
      " WHERE " : String) = "UPDATE users SET a = ? WHERE " from by decide]
    rfl

/-- Claim C10: `describe_table` on a well-formed name — an identifier
token: leading letter or underscore, alphanumeric/underscore characters,
not a SQL keyword, so that the pragma text parses cleanly — with no
matching table returns a success envelope (no `isError`) describing an
empty column list and a null creation statement, because the
introspection pragma yields zero rows rather than an error for an
unknown table. -/
theorem describe_missing_table_success (eng : SelectEngine) (run : RunEngine) (db : SqliteDb)
    (t : String) (hid : isSqlIdentToken t = true)
    (habs : findTable db t = none) :
    (dispatch eng run db "describe_table" [("table_name", .jstr t)]).response =
      { content := [textContent ("Table: " ++ t ++ "\n" ++ jsonStringify2
          (TableSchema.toJson { name := t, columns := [], createSql := none }))],
        isError? := none } ∧
    (dispatch eng run db "describe_table" [("table_name", .jstr t)]).db = db ∧
    (dispatch eng run db "describe_table" [("table_name", .jstr t)]).executed =
      ["PRAGMA table_info(" ++ t ++ ")", createSqlQuery] := by
  have hne : t.data.isEmpty = false := ident_token_nonempty t hid
  have hct := callTool_describe_ok eng run db t hne
  refine ⟨?_, ?_, ?_⟩
  · apply dispatch_response_ok
    rw [hct]
    unfold describeTable
    simp only [pragmaTableInfo, sqliteMasterSql, habs, jsSqlOrNull, List.map_nil]
  · rw [dispatch_db_eq, hct]
    rfl
  · rw [dispatch_executed_eq, hct]
    rfl

/-- Witness for `describe_missing_table_success`: the well-formed name
`users` against the empty database. -/
theorem describe_missing_table_success_witness :
    (dispatch engEmpty runReject [] "describe_table" [("table_name", .jstr "users")]).response =
      { content := [textContent ("Table: " ++ "users" ++ "\n" ++ jsonStringify2
          (TableSchema.toJson { name := "users", columns := [], createSql := none }))],
        isError? := none } ∧
    (dispatch engEmpty runReject [] "describe_table" [("table_name", .jstr "users")]).db = [] ∧
    (dispatch engEmpty runReject [] "describe_table" [("table_name", .jstr "users")]).executed =
      ["PRAGMA table_info(" ++ "users" ++ ")", createSqlQuery] :=
  describe_missing_table_success engEmpty runReject [] "users" (by decide) rfl

/-- Witness for `list_tables_deterministic` at a concrete database. -/
theorem list_tables_deterministic_witness :
    (dispatch engEmpty runReject ((dispatch engEmpty runReject exampleDb "list_tables" []).db)
        "list_tables" []).response =
      (dispatch engEmpty runReject exampleDb "list_tables" []).response ∧
    (dispatch engEmpty runReject exampleDb "list_tables" []).db = exampleDb ∧
    (dispatch engEmpty runReject exampleDb "list_tables" []).executed = [listTablesQuery] ∧
    (dispatch engEmpty runReject exampleDb "list_tables" []).response =
      { content := [textContent ("Found " ++
          toString (listTableNames exampleDb).length ++ " tables:\n" ++
          String.intercalate "\n"
            ((listTableNames exampleDb).map (fun n => "- " ++ n)))],
        isError? := none } ∧
    List.Sorted strLeP (listTableNames exampleDb) ∧
    ∀ n ∈ listTableNames exampleDb, likeSqlitePrefix n = false :=
  list_tables_deterministic engEmpty runReject exampleDb

end SqliteMcp